import Mathlib

/-!
Shallow embedding of the terraform-provider-oras sources
(`internal/provider/provider.go`, `artifact_file.go`, `artifact.go` and the
registry-auth provider configuration), together with a model of the
`internal/cache` pull-through cache target.

Conventions: a Go string is a `List Char`, a Go byte slice is a `List Nat`
whose elements are below 256, and a fallible Go call returns `Except GoErr`.
External collaborators (the oras-go library, the Docker config-file parser,
the filesystem) appear as oracle parameters, while every branch and return
of the provider's own functions is embedded faithfully.
-/

namespace OrasProvider

/-- A Go `error` value, identified by its message. -/
structure GoErr where
  msg : List Char
deriving DecidableEq

/-- An `auth.Credential`, reduced to the two fields the provider sets. -/
structure Credential where
  username : List Char
  password : List Char
deriving DecidableEq

/-- The `auth.EmptyCredential` anonymous credential. -/
def emptyCredential : Credential := ⟨[], []⟩

/-- An OCI descriptor, reduced to the fields the provider reads; `digest`
holds the string form of the content digest. -/
structure Descriptor where
  mediaType : List Char
  digest : List Char
  size : Int
deriving DecidableEq

/-- Association-list lookup keyed by Go strings, modelling a Go map read. -/
def lookupAssoc {β : Type} (k : List Char) : List (List Char × β) → Option β
  | [] => none
  | (k', v) :: rest => if k' = k then some v else lookupAssoc k rest

/-- The standard base64 alphabet of `encoding/base64.StdEncoding`, as a
function from a six-bit index to its character. -/
def b64char (i : Nat) : Char :=
  if i < 26 then Char.ofNat (65 + i)
  else if i < 52 then Char.ofNat (97 + (i - 26))
  else if i < 62 then Char.ofNat (48 + (i - 52))
  else if i = 62 then '+'
  else '/'

/-- Inverse of the standard base64 alphabet: the six-bit index of a
character, or `none` when the character is outside the alphabet. -/
def b64decodeChar (c : Char) : Option Nat :=
  if 65 ≤ c.toNat ∧ c.toNat ≤ 90 then some (c.toNat - 65)
  else if 97 ≤ c.toNat ∧ c.toNat ≤ 122 then some (c.toNat - 97 + 26)
  else if 48 ≤ c.toNat ∧ c.toNat ≤ 57 then some (c.toNat - 48 + 52)
  else if c = '+' then some 62
  else if c = '/' then some 63
  else none

/-- `base64.StdEncoding.EncodeToString`: three input bytes become four
alphabet characters; a final group of one or two bytes is padded with
`=`. -/
def b64encode : List Nat → List Char
  | [] => []
  | [b0] => [b64char (b0 / 4), b64char (b0 % 4 * 16), '=', '=']
  | [b0, b1] =>
      [b64char (b0 / 4), b64char (b0 % 4 * 16 + b1 / 16), b64char (b1 % 16 * 4), '=']
  | b0 :: b1 :: b2 :: rest =>
      b64char (b0 / 4) :: b64char (b0 % 4 * 16 + b1 / 16) ::
      b64char (b1 % 16 * 4 + b2 / 64) :: b64char (b2 % 64) :: b64encode rest

/-- Standard (strict, padded) base64 decoding: groups of four characters
produce three bytes, with `=` padding allowed only at the very end. -/
def b64decode : List Char → Option (List Nat)
  | [] => some []
  | c0 :: c1 :: c2 :: c3 :: rest =>
      match b64decodeChar c0, b64decodeChar c1 with
      | some i0, some i1 =>
          if c2 = '=' then
            if c3 = '=' then
              if rest = [] then
                if i1 % 16 = 0 then some [i0 * 4 + i1 / 16] else none
              else none
            else none
          else
            match b64decodeChar c2 with
            | some i2 =>
                if c3 = '=' then
                  if rest = [] then
                    if i2 % 4 = 0 then
                      some [i0 * 4 + i1 / 16, i1 % 16 * 16 + i2 / 4]
                    else none
                  else none
                else
                  match b64decodeChar c3, b64decode rest with
                  | some i3, some bs =>
                      some ((i0 * 4 + i1 / 16) :: (i1 % 16 * 16 + i2 / 4) ::
                            (i2 % 4 * 64 + i3) :: bs)
                  | _, _ => none
            | none => none
      | _, _ => none
  | _ => none

theorem b64decodeChar_b64char : ∀ i, i < 64 → b64decodeChar (b64char i) = some i := by
  decide

theorem b64char_ne_pad : ∀ i, i < 64 → b64char i ≠ '=' := by
  decide

theorem b64_roundtrip : ∀ (bs : List Nat), (∀ b ∈ bs, b < 256) →
    b64decode (b64encode bs) = some bs
  | [], _ => rfl
  | [b0], h => by
      have hb0 : b0 < 256 := h b0 (by simp)
      show b64decode [b64char (b0 / 4), b64char (b0 % 4 * 16), '=', '='] = some [b0]
      rw [b64decode, b64decodeChar_b64char (b0 / 4) (by omega),
         b64decodeChar_b64char (b0 % 4 * 16) (by omega)]
      have h1 : b0 % 4 * 16 % 16 = 0 := by omega
      simp [h1]
      omega
  | [b0, b1], h => by
      have hb0 : b0 < 256 := h b0 (by simp)
      have hb1 : b1 < 256 := h b1 (by simp)
      show b64decode
          [b64char (b0 / 4), b64char (b0 % 4 * 16 + b1 / 16), b64char (b1 % 16 * 4), '='] =
          some [b0, b1]
      rw [b64decode, b64decodeChar_b64char (b0 / 4) (by omega),
         b64decodeChar_b64char (b0 % 4 * 16 + b1 / 16) (by omega)]
      have hne : b64char (b1 % 16 * 4) ≠ '=' := b64char_ne_pad _ (by omega)
      have h1 : b1 % 16 * 4 % 4 = 0 := by omega
      simp [b64decodeChar_b64char (b1 % 16 * 4) (by omega), hne, h1]
      omega
  | b0 :: b1 :: b2 :: rest, h => by
      have hb0 : b0 < 256 := h b0 (by simp)
      have hb1 : b1 < 256 := h b1 (by simp)
      have hb2 : b2 < 256 := h b2 (by simp)
      have ih := b64_roundtrip rest (fun b hb => h b (by simp [hb]))
      show b64decode
          (b64char (b0 / 4) :: b64char (b0 % 4 * 16 + b1 / 16) ::
           b64char (b1 % 16 * 4 + b2 / 64) :: b64char (b2 % 64) :: b64encode rest) =
          some (b0 :: b1 :: b2 :: rest)
      rw [b64decode, b64decodeChar_b64char (b0 / 4) (by omega),
         b64decodeChar_b64char (b0 % 4 * 16 + b1 / 16) (by omega)]
      have hne2 : b64char (b1 % 16 * 4 + b2 / 64) ≠ '=' := b64char_ne_pad _ (by omega)
      have hne3 : b64char (b2 % 64) ≠ '=' := b64char_ne_pad _ (by omega)
      simp [b64decodeChar_b64char (b1 % 16 * 4 + b2 / 64) (by omega),
            b64decodeChar_b64char (b2 % 64) (by omega), hne2, hne3, ih]
      omega

/-- Index of the first occurrence of a character, as Go's `byteIndex`. -/
def indexOfChar (c : Char) : List Char → Option Nat
  | [] => none
  | x :: xs => if x = c then some 0 else (indexOfChar c xs).map (· + 1)

/-- Index of the last occurrence of a character, as Go's `last`. -/
def lastIndexOfChar (c : Char) : List Char → Option Nat
  | [] => none
  | x :: xs =>
      match lastIndexOfChar c xs with
      | some i => some (i + 1)
      | none => if x = c then some 0 else none

/-- Go's `net.SplitHostPort`, with every error collapsed to `none`: the
port starts after the last colon; a leading `[` starts a bracketed host
that must end in `]` directly before that colon; a bare host may not
contain a colon; stray brackets are rejected. -/
def splitHostPort (hostport : List Char) : Option (List Char × List Char) :=
  match lastIndexOfChar ':' hostport with
  | none => none
  | some i =>
      if hostport.head? = some '[' then
        match indexOfChar ']' hostport with
        | none => none
        | some e =>
            if e + 1 = hostport.length then none
            else if e + 1 = i then
              if (indexOfChar '[' (hostport.drop 1)).isSome then none
              else if (indexOfChar ']' (hostport.drop (e + 1))).isSome then none
              else some ((hostport.drop 1).take (e - 1), hostport.drop (i + 1))
            else none
      else
        if (indexOfChar ':' (hostport.take i)).isSome then none
        else if (indexOfChar '[' hostport).isSome then none
        else if (indexOfChar ']' hostport).isSome then none
        else some (hostport.take i, hostport.drop (i + 1))

/-- Host half of a `splitHostPort` result; the empty string on error, as
in the Go call `host, _, _ := net.SplitHostPort(registry)`. -/
def hostOrEmpty : Option (List Char × List Char) → List Char
  | some (h, _) => h
  | none => []

/-- `isPlainHttp` from `provider.go`: plain HTTP exactly when the parsed
host component is `localhost` or the whole registry string is
`localhost`. -/
def isPlainHttp (registry : List Char) : Bool :=
  if hostOrEmpty (splitHostPort registry) = ("localhost").toList ∨
      registry = ("localhost").toList
  then true else false

/-- The host component of a registry string: the host half when the string
parses as host:port under `splitHostPort`, otherwise the whole string. -/
def hostPart (registry : List Char) : List Char :=
  match splitHostPort registry with
  | some (h, _) => h
  | none => registry

/-- C2: plain HTTP is enabled only for localhost hosts: whenever the host
part of the registry string is not `localhost`, `isPlainHttp` returns
`false`, so every non-local registry is reached over HTTPS. -/
theorem isPlainHttp_false_of_nonlocal (registry : List Char)
    (h : hostPart registry ≠ ("localhost").toList) :
    isPlainHttp registry = false := by
  unfold hostPart at h
  unfold isPlainHttp
  cases hsp : splitHostPort registry with
  | none =>
      rw [hsp] at h
      rw [if_neg]
      intro hor
      rcases hor with hl | hr
      · exact absurd hl (by decide)
      · exact h hr
  | some hp =>
      obtain ⟨hs, ps⟩ := hp
      rw [hsp] at h
      rw [if_neg]
      intro hor
      rcases hor with hl | hr
      · exact h hl
      · rw [hr] at hsp
        have hnone : splitHostPort (("localhost").toList) = none := by decide
        rw [hnone] at hsp
        exact Option.noConfusion hsp

/-- Witness for C2 at the concrete registry `example.com:5000`. -/
theorem isPlainHttp_false_of_nonlocal_witness :
    hostPart (("example.com:5000").toList) ≠ ("localhost").toList ∧
    isPlainHttp (("example.com:5000").toList) = false :=
  ⟨by decide, isPlainHttp_false_of_nonlocal (("example.com:5000").toList) (by decide)⟩

/-- The `http.Transport` settings of the auth client, durations in
seconds. -/
structure Transport where
  dialTimeoutSeconds : Nat
  dialKeepAliveSeconds : Nat
  forceAttemptHTTP2 : Bool
  maxIdleConns : Nat
  idleConnTimeoutSeconds : Nat
  tlsHandshakeTimeoutSeconds : Nat
  expectContinueTimeoutSeconds : Nat
deriving DecidableEq

/-- An `auth.Client` as constructed by the provider: its transport, its
user agent and its credential function. -/
structure AuthClient where
  transport : Transport
  userAgent : List Char
  credential : List Char → Except GoErr Credential

/-- The credential closure installed by `authClient` in `provider.go`: for
the `docker.io` registry the pull hostname `registry-1.docker.io` is
remapped to the legacy Docker Hub login identity before the store lookup;
for any other registry the hostname goes to the store unchanged. -/
def clientCredential (registry : List Char)
    (storeCredential : List Char → Except GoErr Credential) :
    List Char → Except GoErr Credential :=
  fun hostname =>
    if registry = ("docker.io").toList then
      storeCredential
        (if hostname = ("registry-1.docker.io").toList then
          ("https://index.docker.io/v1/").toList
        else hostname)
    else storeCredential hostname

/-- `authClient` from `provider.go`: builds the HTTP client with the fixed
transport, sets the user agent, obtains the credential store (an oracle
that may fail, as `credential.NewStore` does) and installs the per-registry
credential closure. -/
def authClient (version : List Char)
    (newStore : Except GoErr (List Char → Except GoErr Credential))
    (registry : List Char) : Except GoErr AuthClient :=
  match newStore with
  | .error e => .error e
  | .ok storeCredential =>
      .ok
        { transport :=
            { dialTimeoutSeconds := 30
              dialKeepAliveSeconds := 30
              forceAttemptHTTP2 := true
              maxIdleConns := 100
              idleConnTimeoutSeconds := 90
              tlsHandshakeTimeoutSeconds := 10
              expectContinueTimeoutSeconds := 1 }
          userAgent := ("terraform-provider-oras/").toList ++ version
          credential := clientCredential registry storeCredential }

/-- First component of `strings.SplitN(s, "/", 2)`: the characters before
the first slash. -/
def hostSegment : List Char → List Char
  | [] => []
  | c :: cs => if c = '/' then [] else c :: hostSegment cs

/-- `convertToHostname` from the provider configuration: strip an
`http://` or `https://` scheme and keep the part before the first
slash. -/
def convertToHostname (url : List Char) : List Char :=
  let stripped :=
    if (("http://").toList).isPrefixOf url then url.drop 7
    else if (("https://").toList).isPrefixOf url then url.drop 8
    else url
  hostSegment stripped

/-- `authClient` from the registry-auth provider configuration: the same
fixed transport and user agent, with a credential function that normalizes
the hostname, looks it up in the configured credential map and falls back
to the anonymous credential without an error. -/
def authClientConfigured (version : List Char)
    (creds : List (List Char × Credential)) : AuthClient :=
  { transport :=
      { dialTimeoutSeconds := 30
        dialKeepAliveSeconds := 30
        forceAttemptHTTP2 := true
        maxIdleConns := 100
        idleConnTimeoutSeconds := 90
        tlsHandshakeTimeoutSeconds := 10
        expectContinueTimeoutSeconds := 1 }
    userAgent := ("terraform-provider-oras/").toList ++ version
    credential := fun s =>
      match lookupAssoc (convertToHostname s) creds with
      | some cred => .ok cred
      | none => .ok emptyCredential }

/-- C3: the constructed auth client's credential function remaps the
Docker Hub pull hostname to the legacy login identity exactly when the
registry is `docker.io`; every other lookup passes the hostname to the
credential store unchanged. -/
theorem authClient_credential_remap (version registry hostname : List Char)
    (storeCredential : List Char → Except GoErr Credential) :
    ∃ client, authClient version (.ok storeCredential) registry = .ok client ∧
      client.credential hostname =
        storeCredential
          (if registry = ("docker.io").toList ∧
              hostname = ("registry-1.docker.io").toList
           then ("https://index.docker.io/v1/").toList
           else hostname) := by
  refine ⟨_, rfl, ?_⟩
  show clientCredential registry storeCredential hostname = _
  unfold clientCredential
  by_cases hr : registry = ("docker.io").toList
  · by_cases hh : hostname = ("registry-1.docker.io").toList
    · rw [if_pos hr, if_pos hh, if_pos ⟨hr, hh⟩]
    · rw [if_pos hr, if_neg hh, if_neg (fun hab => hh hab.2)]
  · rw [if_neg hr, if_neg (fun hab => hr hab.1)]

/-- C8: both auth-client constructors install the fixed transport values:
30 s dial timeout, 10 s TLS handshake timeout, 90 s idle-connection
timeout and at most 100 idle connections. -/
theorem authClient_transport_values (version registry : List Char)
    (storeCredential : List Char → Except GoErr Credential)
    (creds : List (List Char × Credential)) :
    (∃ client, authClient version (.ok storeCredential) registry = .ok client ∧
      client.transport.dialTimeoutSeconds = 30 ∧
      client.transport.tlsHandshakeTimeoutSeconds = 10 ∧
      client.transport.idleConnTimeoutSeconds = 90 ∧
      client.transport.maxIdleConns = 100) ∧
    (authClientConfigured version creds).transport.dialTimeoutSeconds = 30 ∧
    (authClientConfigured version creds).transport.tlsHandshakeTimeoutSeconds = 10 ∧
    (authClientConfigured version creds).transport.idleConnTimeoutSeconds = 90 ∧
    (authClientConfigured version creds).transport.maxIdleConns = 100 :=
  ⟨⟨_, rfl, rfl, rfl, rfl, rfl⟩, rfl, rfl, rfl, rfl⟩

/-- One `registry_auth` block as decoded from the provider schema; the Go
keys `config_file` and `config_file_content` appear as `configFile` and
`configFileContent`. -/
structure RegistryAuth where
  address : List Char
  username : List Char
  password : List Char
  configFile : List Char
  configFileContent : List Char

/-- Oracles for the Docker config-file machinery used by
`providerSetToCredentials`: parsing a config file from literal content,
expanding a leading `~`, opening plus parsing a config file from disk, and
extracting the auth entry for a hostname. `F` is the parsed config-file
type. -/
structure DockerConfigOps (F : Type) where
  loadFromContent : List Char → Except GoErr F
  homedirExpand : List Char → Except GoErr (List Char)
  openAndLoad : List Char → Except GoErr F
  getAuthConfig : F → List Char → Except GoErr Credential

/-- The credential computed for a single `registry_auth` block, following
the branch order of `providerSetToCredentials`: a non-empty username wins
and stores (username, password); otherwise a non-empty
`config_file_content` is parsed and consulted; otherwise a non-empty
`config_file` path is expanded, opened and consulted; with all three empty
the credential stays the zero value. -/
def blockCredential {F : Type} (ops : DockerConfigOps F) (a : RegistryAuth) :
    Except GoErr Credential :=
  let hostname := convertToHostname a.address
  if a.username ≠ [] then .ok { username := a.username, password := a.password }
  else if a.configFileContent ≠ [] then
    match ops.loadFromContent a.configFileContent with
    | .error _ => .error ⟨("error parsing docker registry config json").toList⟩
    | .ok c =>
        match ops.getAuthConfig c hostname with
        | .error _ =>
            .error ⟨("couldn't find registry config for host in file content").toList⟩
        | .ok ac => .ok { username := ac.username, password := ac.password }
  else if a.configFile ≠ [] then
    match ops.homedirExpand a.configFile with
    | .error e => .error e
    | .ok filePath =>
        match ops.openAndLoad filePath with
        | .error _ => .error ⟨("could not open and load config file").toList⟩
        | .ok c =>
            match ops.getAuthConfig c hostname with
            | .error _ => .error ⟨("could not get auth config").toList⟩
            | .ok ac => .ok { username := ac.username, password := ac.password }
  else .ok { username := [], password := [] }

/-- `providerSetToCredentials`: folds the `registry_auth` blocks in
iteration order into a hostname-keyed credential map; the first failing
block aborts, and a later block overwrites an earlier one for the same
hostname (its entry sits earlier in the association list). -/
def providerSetToCredentials {F : Type} (ops : DockerConfigOps F) :
    List RegistryAuth → Except GoErr (List (List Char × Credential))
  | [] => .ok []
  | a :: rest =>
      match blockCredential ops a with
      | .error e => .error e
      | .ok cred =>
          match providerSetToCredentials ops rest with
          | .error e => .error e
          | .ok m => .ok (m ++ [(convertToHostname a.address, cred)])

/-- C10: credential-source precedence per `registry_auth` block: a
non-empty username stores exactly (username, password) and both config
sources are ignored (the map entry is the same for every oracle and every
config-field value); otherwise non-empty `config_file_content` is used;
otherwise the `config_file` path is used; and the configured auth client
answers an unconfigured hostname with the anonymous credential, without an
error. -/
theorem credentials_precedence {F : Type} (ops : DockerConfigOps F) (a : RegistryAuth)
    (creds : List (List Char × Credential)) :
    (a.username ≠ [] →
      providerSetToCredentials ops [a] =
        .ok [(convertToHostname a.address, ⟨a.username, a.password⟩)]) ∧
    (∀ c ac, a.username = [] → a.configFileContent ≠ [] →
      ops.loadFromContent a.configFileContent = .ok c →
      ops.getAuthConfig c (convertToHostname a.address) = .ok ac →
      providerSetToCredentials ops [a] =
        .ok [(convertToHostname a.address, ⟨ac.username, ac.password⟩)]) ∧
    (∀ p c ac, a.username = [] → a.configFileContent = [] → a.configFile ≠ [] →
      ops.homedirExpand a.configFile = .ok p →
      ops.openAndLoad p = .ok c →
      ops.getAuthConfig c (convertToHostname a.address) = .ok ac →
      providerSetToCredentials ops [a] =
        .ok [(convertToHostname a.address, ⟨ac.username, ac.password⟩)]) ∧
    (∀ s version, lookupAssoc (convertToHostname s) creds = none →
      (authClientConfigured version creds).credential s = .ok emptyCredential) := by
  refine ⟨?_, ?_, ?_, ?_⟩
  · intro hu
    simp [providerSetToCredentials, blockCredential, hu]
  · intro c ac hu hcc hl hg
    simp [providerSetToCredentials, blockCredential, hu, hcc, hl, hg]
  · intro p c ac hu hcc hcf hh ho hg
    simp [providerSetToCredentials, blockCredential, hu, hcc, hcf, hh, ho, hg]
  · intro s version hl
    simp [authClientConfigured, hl]

/-- Docker-config oracles used by the C10 witness: content and files parse
to `()` and every auth lookup yields the fixed pair (u, p). -/
def credsWitnessOps : DockerConfigOps Unit :=
  { loadFromContent := fun _ => .ok ()
    homedirExpand := fun s => .ok s
    openAndLoad := fun _ => .ok ()
    getAuthConfig := fun _ _ => .ok ⟨("u").toList, ("p").toList⟩ }

/-- Witness block with an explicit username, as in the example provider
configuration. -/
def credsWitnessBlockU : RegistryAuth :=
  { address := ("quay.io:8181").toList
    username := ("someuser").toList
    password := ("somepass").toList
    configFile := ("~/.docker/config.json").toList
    configFileContent := [] }

/-- Witness block configured through `config_file_content`. -/
def credsWitnessBlockC : RegistryAuth :=
  { address := ("registry.my.company.com").toList
    username := []
    password := []
    configFile := ("~/.docker/config.json").toList
    configFileContent := ("content").toList }

/-- Witness block configured through a `config_file` path. -/
def credsWitnessBlockF : RegistryAuth :=
  { address := ("registry-1.docker.io").toList
    username := []
    password := []
    configFile := ("~/.docker/config.json").toList
    configFileContent := [] }

/-- Witness for C10: each of the three credential sources at a concrete
block, and an anonymous answer for an unconfigured hostname. -/
theorem credentials_precedence_witness :
    providerSetToCredentials credsWitnessOps [credsWitnessBlockU] =
      .ok [(("quay.io:8181").toList, ⟨("someuser").toList, ("somepass").toList⟩)] ∧
    providerSetToCredentials credsWitnessOps [credsWitnessBlockC] =
      .ok [(("registry.my.company.com").toList, ⟨("u").toList, ("p").toList⟩)] ∧
    providerSetToCredentials credsWitnessOps [credsWitnessBlockF] =
      .ok [(("registry-1.docker.io").toList, ⟨("u").toList, ("p").toList⟩)] ∧
    (authClientConfigured (("1.0.0").toList) []).credential (("example.com").toList) =
      .ok emptyCredential :=
  ⟨(credentials_precedence credsWitnessOps credsWitnessBlockU []).1 (by decide),
   (credentials_precedence credsWitnessOps credsWitnessBlockC []).2.1 () ⟨("u").toList, ("p").toList⟩
     rfl (by decide) rfl rfl,
   (credentials_precedence credsWitnessOps credsWitnessBlockF []).2.2.1
     (("~/.docker/config.json").toList) () ⟨("u").toList, ("p").toList⟩
     rfl rfl (by decide) rfl rfl rfl,
   (credentials_precedence credsWitnessOps credsWitnessBlockU []).2.2.2
     (("example.com").toList) (("1.0.0").toList) rfl⟩

/-- The result of `CachedTarget`: either the remote target itself,
returned unchanged when caching is off, or the remote target wrapped with
an OCI store by `cache.New`. -/
inductive OrasTarget (α σ : Type) where
  | plain (src : α)
  | cached (store : σ) (src : α)
deriving DecidableEq

/-- `CachedTarget` from `provider.go`: reads the `ORAS_CACHE` switch
(passed here explicitly as `orasCache`); when it is non-empty, builds an
OCI store at that root via the `oci.New` oracle and wraps the source with
the cache, otherwise returns the source unchanged. -/
def CachedTarget {α σ : Type} (orasCache : List Char)
    (ociNew : List Char → Except GoErr σ) (src : α) :
    Except GoErr (OrasTarget α σ) :=
  if orasCache ≠ [] then
    match ociNew orasCache with
    | .error e => .error e
    | .ok ociStore => .ok (.cached ociStore src)
  else .ok (.plain src)

/-- C4: with `ORAS_CACHE` empty the remote target is returned unchanged,
bypassing the cache; with it set, the returned target wraps the remote
target with the OCI store rooted at that path. -/
theorem cachedTarget_env_switch {α σ : Type} (orasCache : List Char)
    (ociNew : List Char → Except GoErr σ) (src : α) :
    (orasCache = [] → CachedTarget orasCache ociNew src = .ok (.plain src)) ∧
    (∀ st, orasCache ≠ [] → ociNew orasCache = .ok st →
      CachedTarget orasCache ociNew src = .ok (.cached st src)) := by
  constructor
  · intro h
    simp [CachedTarget, h]
  · intro st h hst
    simp [CachedTarget, h, hst]

/-- Witness for C4 with the cache switch absent and then set. -/
theorem cachedTarget_env_switch_witness :
    CachedTarget ([] : List Char) (fun _ => (.ok 0 : Except GoErr Nat)) (1 : Nat) =
      .ok (.plain 1) ∧
    CachedTarget (("/tmp/oras-cache").toList) (fun _ => (.ok 0 : Except GoErr Nat)) (1 : Nat) =
      .ok (.cached 0 1) :=
  ⟨(cachedTarget_env_switch [] (fun _ => .ok 0) 1).1 rfl,
   (cachedTarget_env_switch (("/tmp/oras-cache").toList) (fun _ => .ok 0) 1).2 0
     (by decide) rfl⟩

/-- Modelled from the spec: the `internal/cache` package — the Cache
Target built by `cache.New` inside `CachedTarget` — is not among the
provided source files, so its pull-through fetch policy is modelled from
spec section 4.4. The Local Content Store is a digest-keyed map, `hashOf`
recomputes a digest over bytes, and `remoteFetch` is the Remote Target.
On a local hit the stored bytes are returned without contacting the
remote; on a miss the remote is fetched, the bytes are digest-verified,
and they are stored only when verification succeeds. The last component
of the result counts remote calls made by this fetch. -/
def cacheFetch (hashOf : List Nat → List Char)
    (remoteFetch : List Char → Except GoErr (List Nat))
    (store : List (List Char × List Nat)) (digest : List Char) :
    Except GoErr (List Nat) × List (List Char × List Nat) × Nat :=
  match lookupAssoc digest store with
  | some bs => (.ok bs, store, 0)
  | none =>
      match remoteFetch digest with
      | .error e => (.error e, store, 1)
      | .ok bs =>
          if hashOf bs = digest then (.ok bs, (digest, bs) :: store, 1)
          else (.error ⟨("corrupt content").toList⟩, store, 1)

/-- C1: cache idempotence: once the Local Content Store holds an entry for
a digest, fetch returns its bytes with zero remote calls; consequently a
second fetch after any successful fetch returns byte-identical content and
performs zero remote calls. -/
theorem cache_fetch_idempotent (hashOf : List Nat → List Char)
    (remoteFetch : List Char → Except GoErr (List Nat)) :
    (∀ store digest bs, lookupAssoc digest store = some bs →
      cacheFetch hashOf remoteFetch store digest = (.ok bs, store, 0)) ∧
    (∀ store digest bs store1 n1,
      cacheFetch hashOf remoteFetch store digest = (.ok bs, store1, n1) →
      cacheFetch hashOf remoteFetch store1 digest = (.ok bs, store1, 0)) := by
  constructor
  · intro store digest bs hl
    simp [cacheFetch, hl]
  · intro store digest bs store1 n1 h
    unfold cacheFetch at h
    cases hl : lookupAssoc digest store with
    | some bs0 =>
        rw [hl] at h
        simp only [Prod.mk.injEq, Except.ok.injEq] at h
        obtain ⟨hbs, hst, hn⟩ := h
        subst hbs
        subst hst
        simp [cacheFetch, hl]
    | none =>
        rw [hl] at h
        cases hr : remoteFetch digest with
        | error e =>
            rw [hr] at h
            simp at h
        | ok bs0 =>
            rw [hr] at h
            dsimp only at h
            by_cases hh : hashOf bs0 = digest
            · rw [if_pos hh] at h
              simp only [Prod.mk.injEq, Except.ok.injEq] at h
              obtain ⟨hbs, hst, hn⟩ := h
              subst hbs
              rw [← hst]
              simp [cacheFetch, lookupAssoc]
            · rw [if_neg hh] at h
              simp at h

/-- Witness for C1: a concrete store already holding the digest answers
with the stored bytes and zero remote calls, applied through the second
conjunct after a concrete first fetch. -/
theorem cache_fetch_idempotent_witness :
    cacheFetch (fun _ => ("d").toList) (fun _ => .ok [7])
      [(("d").toList, [7])] (("d").toList) =
      (.ok [7], [(("d").toList, [7])], 0) :=
  (cache_fetch_idempotent (fun _ => ("d").toList) (fun _ => .ok [7])).2
    [] (("d").toList) [7] [(("d").toList, [7])] 1 rfl

/-- The error `os.ReadFile` yields for an absent file. -/
def fileNotExistErr : GoErr := ⟨("open: no such file or directory").toList⟩

/-- Environment of one `oras_artifact_file` read: the outcome of each
external call it makes, in program order. `copy` yields the root
descriptor together with the tree of files `oras.Copy` materializes into
the temp directory, as name-to-bytes pairs; `sha1hex` is the hex-encoded
SHA-1 oracle used only for the resource ID. `σ` is the OCI-store type of
the cache. -/
structure FileReadEnv (σ : Type) where
  newRepository : Except GoErr Unit
  orasCache : List Char
  ociNew : List Char → Except GoErr σ
  mkdirTemp : Except GoErr (List Char)
  fileNew : Except GoErr Unit
  copy : Except GoErr (Descriptor × List (List Char × List Nat))
  sha1hex : List Nat → List Char

/-- Observable outcome of one `oras_artifact_file` read: the diagnostics
result, whether the scratch temp directory was created and whether it was
removed again, and the attributes set on success (`content` as the raw
byte string, `content_base64`, and the resource ID). -/
structure FileReadResult where
  result : Except GoErr Unit
  tempCreated : Bool
  tempRemoved : Bool
  content : Option (List Nat)
  contentBase64 : Option (List Char)
  id : Option (List Char)

/-- `dataSourceOrasArtifactFileRead`: builds the repository, wraps it via
`CachedTarget`, creates the scratch temp directory — with
`defer os.RemoveAll(temp)` registered immediately after, so every later
return removes it — opens the destination file store, copies the artifact
and reads the named file out of the materialized tree (`os.ReadFile` on an
absent name is the not-exist error). On success `content` holds the file
bytes, `content_base64` their base64 encoding, and the ID the hex SHA-1
checksum. -/
def dataSourceOrasArtifactFileRead {σ : Type} (env : FileReadEnv σ)
    (filename : List Char) : FileReadResult :=
  match env.newRepository with
  | .error e => ⟨.error e, false, false, none, none, none⟩
  | .ok repo =>
      match CachedTarget env.orasCache env.ociNew repo with
      | .error e => ⟨.error e, false, false, none, none, none⟩
      | .ok _src =>
          match env.mkdirTemp with
          | .error e => ⟨.error e, false, false, none, none, none⟩
          | .ok _temp =>
              match env.fileNew with
              | .error e => ⟨.error e, true, true, none, none, none⟩
              | .ok _dst =>
                  match env.copy with
                  | .error e => ⟨.error e, true, true, none, none, none⟩
                  | .ok (_desc, tree) =>
                      match lookupAssoc filename tree with
                      | none => ⟨.error fileNotExistErr, true, true, none, none, none⟩
                      | some content =>
                          ⟨.ok (), true, true, some content, some (b64encode content),
                            some (env.sha1hex content)⟩

/-- Environment of one `oras_artifact` read, in program order. -/
structure ArtifactReadEnv (σ : Type) where
  newRepository : Except GoErr Unit
  orasCache : List Char
  ociNew : List Char → Except GoErr σ
  fileNew : Except GoErr Unit
  copy : Except GoErr Descriptor

/-- Observable outcome of one `oras_artifact` read: the diagnostics result
and the resource ID set on success. -/
structure ArtifactReadResult where
  result : Except GoErr Unit
  id : Option (List Char)

/-- `dataSourceOrasArtifactRead`: builds the repository, wraps it via
`CachedTarget`, opens the destination file store at the output path,
copies the artifact and on success sets the resource ID to the string form
of the returned root descriptor's digest. -/
def dataSourceOrasArtifactRead {σ : Type} (env : ArtifactReadEnv σ) :
    ArtifactReadResult :=
  match env.newRepository with
  | .error e => ⟨.error e, none⟩
  | .ok repo =>
      match CachedTarget env.orasCache env.ociNew repo with
      | .error e => ⟨.error e, none⟩
      | .ok _src =>
          match env.fileNew with
          | .error e => ⟨.error e, none⟩
          | .ok _dst =>
              match env.copy with
              | .error e => ⟨.error e, none⟩
              | .ok desc => ⟨.ok (), some desc.digest⟩

/-- C5: the scratch temp directory of the `oras_artifact_file` read is
removed exactly when it was created: every exit path after `os.MkdirTemp`
succeeds — the file-store error path, the copy error path, the file-read
error path and the success path — runs the deferred removal, and no path
before creation removes anything. -/
theorem fileRead_temp_cleanup {σ : Type} (env : FileReadEnv σ) (filename : List Char) :
    (dataSourceOrasArtifactFileRead env filename).tempRemoved =
      (dataSourceOrasArtifactFileRead env filename).tempCreated := by
  unfold dataSourceOrasArtifactFileRead
  repeat' split
  all_goals rfl

/-- C6: no partial success: for the file data source the first failing
step — repository construction, cache construction, temp creation, file
store creation or copy — yields exactly that error as the whole result;
the requested file is located by name in the fully materialized tree and
an absent name fails with the not-exist error; and for the artifact data
source the copy error likewise propagates unchanged. -/
theorem read_first_error {σ : Type} (env : FileReadEnv σ) (aenv : ArtifactReadEnv σ)
    (filename : List Char) :
    (∀ e, env.newRepository = .error e →
      (dataSourceOrasArtifactFileRead env filename).result = .error e) ∧
    (∀ e, env.newRepository = .ok () →
      CachedTarget env.orasCache env.ociNew () = .error e →
      (dataSourceOrasArtifactFileRead env filename).result = .error e) ∧
    (∀ e t, env.newRepository = .ok () →
      CachedTarget env.orasCache env.ociNew () = .ok t →
      env.mkdirTemp = .error e →
      (dataSourceOrasArtifactFileRead env filename).result = .error e) ∧
    (∀ e t temp, env.newRepository = .ok () →
      CachedTarget env.orasCache env.ociNew () = .ok t →
      env.mkdirTemp = .ok temp → env.fileNew = .error e →
      (dataSourceOrasArtifactFileRead env filename).result = .error e) ∧
    (∀ e t temp, env.newRepository = .ok () →
      CachedTarget env.orasCache env.ociNew () = .ok t →
      env.mkdirTemp = .ok temp → env.fileNew = .ok () → env.copy = .error e →
      (dataSourceOrasArtifactFileRead env filename).result = .error e) ∧
    (∀ t temp desc tree, env.newRepository = .ok () →
      CachedTarget env.orasCache env.ociNew () = .ok t →
      env.mkdirTemp = .ok temp → env.fileNew = .ok () → env.copy = .ok (desc, tree) →
      lookupAssoc filename tree = none →
      (dataSourceOrasArtifactFileRead env filename).result = .error fileNotExistErr) ∧
    (∀ e t, aenv.newRepository = .ok () →
      CachedTarget aenv.orasCache aenv.ociNew () = .ok t →
      aenv.fileNew = .ok () → aenv.copy = .error e →
      (dataSourceOrasArtifactRead aenv).result = .error e) := by
  refine ⟨?_, ?_, ?_, ?_, ?_, ?_, ?_⟩
  · intro e h1
    simp [dataSourceOrasArtifactFileRead, h1]
  · intro e h1 h2
    simp [dataSourceOrasArtifactFileRead, h1, h2]
  · intro e t h1 h2 h3
    simp [dataSourceOrasArtifactFileRead, h1, h2, h3]
  · intro e t temp h1 h2 h3 h4
    simp [dataSourceOrasArtifactFileRead, h1, h2, h3, h4]
  · intro e t temp h1 h2 h3 h4 h5
    simp [dataSourceOrasArtifactFileRead, h1, h2, h3, h4, h5]
  · intro t temp desc tree h1 h2 h3 h4 h5 h6
    simp [dataSourceOrasArtifactFileRead, h1, h2, h3, h4, h5, h6]
  · intro e t h1 h2 h3 h4
    simp [dataSourceOrasArtifactRead, h1, h2, h3, h4]

/-- C7: on success the `oras_artifact` read sets the resource ID to the
string form of the digest of the root descriptor returned by the copy of
the requested reference. -/
theorem artifactRead_id_is_digest {σ : Type} (env : ArtifactReadEnv σ)
    (t : OrasTarget Unit σ) (desc : Descriptor)
    (h1 : env.newRepository = .ok ())
    (h2 : CachedTarget env.orasCache env.ociNew () = .ok t)
    (h3 : env.fileNew = .ok ())
    (h4 : env.copy = .ok desc) :
    (dataSourceOrasArtifactRead env).result = .ok () ∧
    (dataSourceOrasArtifactRead env).id = some desc.digest := by
  constructor
  · simp [dataSourceOrasArtifactRead, h1, h2, h3, h4]
  · simp [dataSourceOrasArtifactRead, h1, h2, h3, h4]

/-- Inversion helper: whenever a file read reports `content` bytes, the
`content_base64` attribute it reports is exactly their base64 encoding. -/
theorem fileRead_content_base64 {σ : Type} (env : FileReadEnv σ) (filename : List Char)
    (bs : List Nat)
    (hc : (dataSourceOrasArtifactFileRead env filename).content = some bs) :
    (dataSourceOrasArtifactFileRead env filename).contentBase64 =
      some (b64encode bs) := by
  unfold dataSourceOrasArtifactFileRead at hc ⊢
  cases h1 : env.newRepository with
  | error e => rw [h1] at hc; simp at hc
  | ok u =>
      cases u
      rw [h1] at hc
      dsimp only at hc ⊢
      cases h2 : CachedTarget env.orasCache env.ociNew PUnit.unit with
      | error e => rw [h2] at hc; simp at hc
      | ok t =>
          rw [h2] at hc
          dsimp only at hc ⊢
          cases h3 : env.mkdirTemp with
          | error e => rw [h3] at hc; simp at hc
          | ok temp =>
              rw [h3] at hc
              dsimp only at hc ⊢
              cases h4 : env.fileNew with
              | error e => rw [h4] at hc; simp at hc
              | ok v =>
                  cases v
                  rw [h4] at hc
                  dsimp only at hc ⊢
                  cases h5 : env.copy with
                  | error e => rw [h5] at hc; simp at hc
                  | ok dt =>
                      obtain ⟨desc, tree⟩ := dt
                      rw [h5] at hc
                      dsimp only at hc ⊢
                      cases h6 : lookupAssoc filename tree with
                      | none => rw [h6] at hc; simp at hc
                      | some content =>
                          rw [h6] at hc
                          dsimp only at hc ⊢
                          injection hc with hc'
                          rw [hc']

/-- C9: after every successful `oras_artifact_file` read the two computed
attributes denote the same bytes: standard base64 decoding of the
`content_base64` attribute recovers exactly the byte sequence stored as
the `content` attribute. -/
theorem fileRead_base64_roundtrip {σ : Type} (env : FileReadEnv σ) (filename : List Char)
    (bs : List Nat) (cs : List Char)
    (hb : ∀ b ∈ bs, b < 256)
    (hc : (dataSourceOrasArtifactFileRead env filename).content = some bs)
    (h64 : (dataSourceOrasArtifactFileRead env filename).contentBase64 = some cs) :
    b64decode cs = some bs := by
  have h := fileRead_content_base64 env filename bs hc
  rw [h64] at h
  injection h with h'
  rw [h']
  exact b64_roundtrip bs hb

/-- Concrete file-read environment for witnesses: every step succeeds, the
cache is off, and the materialized tree holds `hello.txt` with the two
bytes of the ASCII text `hi`. -/
def witnessFileEnv : FileReadEnv Nat :=
  { newRepository := .ok ()
    orasCache := []
    ociNew := fun _ => .ok 0
    mkdirTemp := .ok (("/tmp/terraform-oras-provider-1").toList)
    fileNew := .ok ()
    copy := .ok (⟨("application/vnd.oci.image.manifest.v1+json").toList,
                  ("sha256:4e3b").toList, 2⟩,
                 [(("hello.txt").toList, [104, 105])])
    sha1hex := fun _ => [] }

/-- File-read environment whose repository construction fails. -/
def witnessErrFileEnv : FileReadEnv Nat :=
  { witnessFileEnv with newRepository := .error ⟨("invalid reference").toList⟩ }

/-- Concrete artifact-read environment for witnesses: every step succeeds
and the copy returns a fixed root descriptor. -/
def witnessArtifactEnv : ArtifactReadEnv Nat :=
  { newRepository := .ok ()
    orasCache := []
    ociNew := fun _ => .ok 0
    fileNew := .ok ()
    copy := .ok ⟨("application/vnd.oci.image.manifest.v1+json").toList,
                 ("sha256:4e3b").toList, 2⟩ }

/-- Artifact-read environment whose copy fails. -/
def witnessErrArtifactEnv : ArtifactReadEnv Nat :=
  { witnessArtifactEnv with copy := .error ⟨("not found").toList⟩ }

/-- Witness for C6: a failing repository construction, an absent filename
and a failing artifact copy, each at a concrete environment. -/
theorem read_first_error_witness :
    (dataSourceOrasArtifactFileRead witnessErrFileEnv (("hello.txt").toList)).result =
      .error ⟨("invalid reference").toList⟩ ∧
    (dataSourceOrasArtifactFileRead witnessFileEnv (("missing.txt").toList)).result =
      .error fileNotExistErr ∧
    (dataSourceOrasArtifactRead witnessErrArtifactEnv).result =
      .error ⟨("not found").toList⟩ :=
  ⟨(read_first_error witnessErrFileEnv witnessErrArtifactEnv (("hello.txt").toList)).1
      ⟨("invalid reference").toList⟩ rfl,
   (read_first_error witnessFileEnv witnessErrArtifactEnv (("missing.txt").toList)).2.2.2.2.2.1
      (.plain ()) (("/tmp/terraform-oras-provider-1").toList)
      ⟨("application/vnd.oci.image.manifest.v1+json").toList, ("sha256:4e3b").toList, 2⟩
      [(("hello.txt").toList, [104, 105])]
      rfl rfl rfl rfl rfl (by decide),
   (read_first_error witnessFileEnv witnessErrArtifactEnv (("hello.txt").toList)).2.2.2.2.2.2
      ⟨("not found").toList⟩ (.plain ()) rfl rfl rfl rfl⟩

/-- Witness for C7 at the concrete artifact-read environment. -/
theorem artifactRead_id_is_digest_witness :
    (dataSourceOrasArtifactRead witnessArtifactEnv).result = .ok () ∧
    (dataSourceOrasArtifactRead witnessArtifactEnv).id = some (("sha256:4e3b").toList) :=
  artifactRead_id_is_digest witnessArtifactEnv (.plain ())
    ⟨("application/vnd.oci.image.manifest.v1+json").toList, ("sha256:4e3b").toList, 2⟩
    rfl rfl rfl rfl

/-- Witness for C9: at the concrete environment the read succeeds with the
bytes of `hi`, whose base64 encoding decodes back to those bytes. -/
theorem fileRead_base64_roundtrip_witness :
    b64decode (("aGk=").toList) = some [104, 105] :=
  fileRead_base64_roundtrip witnessFileEnv (("hello.txt").toList) [104, 105]
    (("aGk=").toList) (by decide) (by decide) (by decide)

end OrasProvider
